import Mathlib

/-
Verification of the validator-client attester duty and its slashing-protection
engine (validator/client/attest.go of the prysm repository).

The slashing-protection functions `safeTargetToSource`, `isNewAttSlashable`
and `markAttestationForTargetEpoch` are translated directly from the Go
source.  Go `uint64` values are modelled as `Nat` (with explicit `% 2^64`
where the source can overflow) and Go `int` (64-bit signed) conversions and
arithmetic are modelled by explicit two's-complement reinterpretation
(`uint64ToInt64`) and wrapping (`int64wrap`).

The weak-subjectivity period `ws` (read from `params.BeaconConfig()` in the
source, which is outside the given sources) is passed as an explicit
parameter to every function, exactly where the source reads the
configuration value.
-/

/-- Modelled from the spec: the `FarFutureEpoch` sentinel of
`params.BeaconConfig()` (the params package is not among the sources; the
spec fixes the sentinel to the maximum representable epoch value, which for
a 64-bit epoch is `2^64 - 1`, matching the reference protocol). -/
def farFutureEpoch : Nat := 2 ^ 64 - 1

/-- Two's-complement reinterpretation of a `uint64` value as a Go `int`
(64-bit signed), as performed by the conversions `int(targetEpoch)`,
`int(history.LatestEpochWritten)` and `int(wsPeriod)` in the source. -/
def uint64ToInt64 (x : Nat) : Int :=
  if x < 2 ^ 63 then (x : Int) else (x : Int) - 2 ^ 64

/-- Wrapping of a mathematical integer into the `int64` range, as performed
by Go signed 64-bit arithmetic (two's-complement wraparound on overflow). -/
def int64wrap (x : Int) : Int :=
  (x + 2 ^ 63) % 2 ^ 64 - 2 ^ 63

/-- Modelled from the spec: the shape of `slashpb.AttestationHistory` (the
proto definition is not among the sources): a watermark
`latestEpochWritten` plus a fixed-size `targetToSource` array of length
equal to the weak-subjectivity period, indexed by `epoch mod period`, each
slot holding a source epoch or the sentinel. -/
structure AttestationHistory where
  latestEpochWritten : Nat
  targetToSource : List Nat
deriving DecidableEq

/-- Modelled from the spec: a fresh history — every slot holds the
sentinel and the watermark is `0`. -/
def emptyHistory (ws : Nat) : AttestationHistory :=
  { latestEpochWritten := 0, targetToSource := List.replicate ws farFutureEpoch }

/-- `safeTargetToSource` from the source: returns the sentinel when
`targetEpoch > history.LatestEpochWritten` or
`int(targetEpoch) < int(history.LatestEpochWritten) - int(wsPeriod)`
(signed 64-bit comparison and subtraction), otherwise reads
`targetToSource[targetEpoch % wsPeriod]`. -/
def safeTargetToSource (ws : Nat) (history : AttestationHistory) (targetEpoch : Nat) : Nat :=
  if history.latestEpochWritten < targetEpoch ∨
      uint64ToInt64 targetEpoch <
        int64wrap (uint64ToInt64 history.latestEpochWritten - uint64ToInt64 ws) then
    farFutureEpoch
  else
    history.targetToSource.getD (targetEpoch % ws) 0

/-- Fuel-indexed form of the Go loop `for i := lo; i <= hi; i++`, returning
whether the loop body would `return true` at some iteration.  The fuel is
instantiated (in `forRangeAny`) with the exact iteration count, so the
recursion is structural and the function evaluates by kernel reduction. -/
def anyInRange : Nat → Nat → Nat → (Nat → Bool) → Bool
  | 0, _, _, _ => false
  | fuel + 1, i, hi, p => if i ≤ hi then (p i || anyInRange fuel (i + 1) hi p) else false

/-- `for i := lo; i <= hi; i++ { if p i { return true } }; return false`. -/
def forRangeAny (lo hi : Nat) (p : Nat → Bool) : Bool :=
  anyInRange (hi + 1 - lo) lo hi p

/-- `isNewAttSlashable` from the source, in the source's evaluation order:
the signed pruned-window check, the double-vote check, the surrounding
check, then the surrounded check. -/
def isNewAttSlashable (ws : Nat) (history : AttestationHistory)
    (sourceEpoch targetEpoch : Nat) : Bool :=
  -- Previously pruned, we should return false.
  if uint64ToInt64 targetEpoch ≤
      int64wrap (uint64ToInt64 history.latestEpochWritten - uint64ToInt64 ws) then
    false
  -- Check if there has already been a vote for this target epoch.
  else if safeTargetToSource ws history targetEpoch ≠ farFutureEpoch then
    true
  -- Check if the new attestation would be surrounding another attestation.
  else if forRangeAny sourceEpoch targetEpoch (fun i =>
      decide (safeTargetToSource ws history i ≠ farFutureEpoch ∧
        sourceEpoch < history.targetToSource.getD (i % ws) 0)) then
    true
  -- Check if the new attestation is being surrounded.
  else if forRangeAny targetEpoch history.latestEpochWritten (fun i =>
      decide (safeTargetToSource ws history i < sourceEpoch)) then
    true
  else
    false

/-- Fuel-indexed form of the gap-clearing loop of
`markAttestationForTargetEpoch`:
`for i := start; i < targetEpoch && i <= maxToWrite; i++ { arr[i%ws] = FarFutureEpoch }`.
The fuel is instantiated with `targetEpoch - start`, the exact upper bound
on the iteration count, so the recursion is structural. -/
def clearSlots (ws : Nat) : Nat → Nat → Nat → Nat → List Nat → List Nat
  | 0, _, _, _, arr => arr
  | fuel + 1, i, targetEpoch, maxToWrite, arr =>
    if i < targetEpoch ∧ i ≤ maxToWrite then
      clearSlots ws fuel (i + 1) targetEpoch maxToWrite (arr.set (i % ws) farFutureEpoch)
    else
      arr

/-- `markAttestationForTargetEpoch` from the source: when the target is
ahead of the watermark, clear the slots of the skipped epochs (bounded by
`latestEpochWritten + wsPeriod`, a `uint64` addition that can wrap) and
advance the watermark; then unconditionally write
`targetToSource[targetEpoch % wsPeriod] = sourceEpoch`. -/
def markAttestationForTargetEpoch (ws : Nat) (history : AttestationHistory)
    (sourceEpoch targetEpoch : Nat) : AttestationHistory :=
  if history.latestEpochWritten < targetEpoch then
    let maxToWrite := (history.latestEpochWritten + ws) % 2 ^ 64
    let cleared := clearSlots ws (targetEpoch - (history.latestEpochWritten + 1))
      (history.latestEpochWritten + 1) targetEpoch maxToWrite history.targetToSource
    { latestEpochWritten := targetEpoch,
      targetToSource := cleared.set (targetEpoch % ws) sourceEpoch }
  else
    { latestEpochWritten := history.latestEpochWritten,
      targetToSource := history.targetToSource.set (targetEpoch % ws) sourceEpoch }

/-! ### Arithmetic and list helper lemmas -/

lemma uint64ToInt64_small (x : Nat) (h : x < 2 ^ 63) : uint64ToInt64 x = (x : Int) := by
  rw [uint64ToInt64, if_pos h]

lemma uint64ToInt64_large (x : Nat) (h : 2 ^ 63 ≤ x) :
    uint64ToInt64 x = (x : Int) - 2 ^ 64 := by
  rw [uint64ToInt64, if_neg (Nat.not_lt.mpr h)]

lemma int64wrap_id (x : Int) (h1 : -(2 ^ 63) ≤ x) (h2 : x < 2 ^ 63) : int64wrap x = x := by
  unfold int64wrap
  have h3 : (x + 2 ^ 63) % 2 ^ 64 = x + 2 ^ 63 := Int.emod_eq_of_lt (by omega) (by omega)
  omega

lemma clearSlots_length (ws fuel i t m : Nat) (arr : List Nat) :
    (clearSlots ws fuel i t m arr).length = arr.length := by
  induction fuel generalizing i arr with
  | zero => rfl
  | succ n ih =>
    unfold clearSlots
    split
    · rw [ih]
      exact List.length_set arr _ _
    · rfl

lemma getD_set_self (l : List Nat) (i x : Nat) (h : i < l.length) :
    (l.set i x).getD i 0 = x := by
  induction l generalizing i with
  | nil => simp at h
  | cons a tl ih =>
    cases i with
    | zero => rfl
    | succ n =>
      simp only [List.set, List.getD_cons_succ]
      exact ih n (by simpa using h)

lemma mark_latestEpochWritten (ws : Nat) (h : AttestationHistory) (s t : Nat) :
    (markAttestationForTargetEpoch ws h s t).latestEpochWritten =
      max h.latestEpochWritten t := by
  unfold markAttestationForTargetEpoch
  split
  next hlt => simp [Nat.max_eq_right (Nat.le_of_lt hlt)]
  next hge => simp [Nat.max_eq_left (Nat.not_lt.mp hge)]

lemma mark_targetToSource_shape (ws : Nat) (h : AttestationHistory) (s t : Nat) :
    ∃ arr : List Nat, (markAttestationForTargetEpoch ws h s t).targetToSource =
      arr.set (t % ws) s ∧ arr.length = h.targetToSource.length := by
  unfold markAttestationForTargetEpoch
  split
  · exact ⟨_, rfl, clearSlots_length _ _ _ _ _ _⟩
  · exact ⟨h.targetToSource, rfl, rfl⟩

/-! ### Claims about the slashing-protection engine -/

/-- C3 counterexample: the claim says `safeTargetToSource` returns the
sentinel whenever `e <= latestEpochWritten - period`.  With period 4,
`latestEpochWritten = 10` and `e = 6 = 10 - 4`, the source's strict `<`
comparison lets the read through and it returns the stored slot value `5`,
not the sentinel. -/
theorem safeTargetToSource_boundary_not_sentinel :
    safeTargetToSource 4 ⟨10, [farFutureEpoch, farFutureEpoch, 5, farFutureEpoch]⟩ 6 = 5 ∧
    (6 : Int) ≤ (10 : Int) - (4 : Int) ∧ (5 : Nat) ≠ farFutureEpoch := by
  decide

/-- C3 (amended): for configurations with `period < 2^63` and histories with
`latestEpochWritten < 2^63`, `safeTargetToSource history e` returns the
sentinel iff `e > latestEpochWritten` or `e < latestEpochWritten - period`
— the lower bound is strict, not `e <= latestEpochWritten - period` as
claimed — computed in ideal (wide) integer arithmetic, and otherwise
returns `targetToSource[e mod period]`. -/
theorem safeTargetToSource_ideal_characterization (ws : Nat) (h : AttestationHistory)
    (e : Nat) (hws : ws < 2 ^ 63) (hlew : h.latestEpochWritten < 2 ^ 63) (he : e < 2 ^ 64) :
    safeTargetToSource ws h e =
      if h.latestEpochWritten < e ∨ (e : Int) < (h.latestEpochWritten : Int) - (ws : Int) then
        farFutureEpoch
      else
        h.targetToSource.getD (e % ws) 0 := by
  have hcond : (h.latestEpochWritten < e ∨
      uint64ToInt64 e <
        int64wrap (uint64ToInt64 h.latestEpochWritten - uint64ToInt64 ws)) ↔
      (h.latestEpochWritten < e ∨ (e : Int) < (h.latestEpochWritten : Int) - (ws : Int)) := by
    rw [uint64ToInt64_small _ hlew, uint64ToInt64_small _ hws,
      int64wrap_id _ (by omega) (by omega)]
    by_cases he63 : e < 2 ^ 63
    · rw [uint64ToInt64_small _ he63]
    · have h1 : h.latestEpochWritten < e := by omega
      simp [h1]
  unfold safeTargetToSource
  exact if_congr hcond rfl rfl

/-- C3 witness: the amended characterization evaluated at period 4, a
history with watermark 2, and epoch 1 (an in-window read). -/
theorem safeTargetToSource_ideal_characterization_witness :
    safeTargetToSource 4 ⟨2, [farFutureEpoch, farFutureEpoch, 1, farFutureEpoch]⟩ 1 =
      if (2 : Nat) < 1 ∨ (1 : Int) < (2 : Int) - (4 : Int) then farFutureEpoch
      else [farFutureEpoch, farFutureEpoch, 1, farFutureEpoch].getD (1 % 4) 0 :=
  safeTargetToSource_ideal_characterization 4
    ⟨2, [farFutureEpoch, farFutureEpoch, 1, farFutureEpoch]⟩ 1
    (by decide) (by decide) (by decide)

/-- C4 counterexample: the claim quantifies over every history.  With
period 4, `latestEpochWritten = 2^63`, all slots holding `5` (not the
sentinel) and a target `t = 2^63` satisfying
`latestEpochWritten >= t > latestEpochWritten - period`, the signed
pruned-window comparison wraps (`int(2^63) - int(4)` overflows to a large
positive value) and `isNewAttSlashable` returns `false`, not `true` as
claimed. -/
theorem isNewAttSlashable_double_vote_huge_watermark :
    isNewAttSlashable 4 ⟨2 ^ 63, [5, 5, 5, 5]⟩ 0 (2 ^ 63) = false ∧
    (⟨2 ^ 63, [5, 5, 5, 5]⟩ : AttestationHistory).targetToSource.getD (2 ^ 63 % 4) 0 = 5 ∧
    (5 : Nat) ≠ farFutureEpoch ∧
    (2 ^ 63 : Nat) ≤ 2 ^ 63 ∧ ((2 ^ 63 : Int) - 4 < 2 ^ 63) := by
  decide

/-- C4 (amended): for every history with `latestEpochWritten < 2^63` (and a
period `< 2^63`), if `targetToSource[t mod period]` is not the sentinel and
`latestEpochWritten >= t > latestEpochWritten - period`, then for every
candidate source epoch `isNewAttSlashable history s t` returns `true`
(double-vote detection). -/
theorem isNewAttSlashable_double_vote_detected (ws : Nat) (h : AttestationHistory)
    (s t : Nat) (hws : ws < 2 ^ 63) (hlew : h.latestEpochWritten < 2 ^ 63)
    (hrec : h.targetToSource.getD (t % ws) 0 ≠ farFutureEpoch)
    (ht1 : t ≤ h.latestEpochWritten)
    (ht2 : (h.latestEpochWritten : Int) - (ws : Int) < (t : Int)) :
    isNewAttSlashable ws h s t = true := by
  have ht63 : t < 2 ^ 63 := lt_of_le_of_lt ht1 hlew
  have hsafe : safeTargetToSource ws h t ≠ farFutureEpoch := by
    unfold safeTargetToSource
    rw [uint64ToInt64_small _ ht63, uint64ToInt64_small _ hlew, uint64ToInt64_small _ hws,
      int64wrap_id _ (by omega) (by omega), if_neg (by omega)]
    exact hrec
  unfold isNewAttSlashable
  rw [uint64ToInt64_small _ ht63, uint64ToInt64_small _ hlew, uint64ToInt64_small _ hws,
    int64wrap_id _ (by omega) (by omega), if_neg (by omega), if_pos hsafe]

/-- C4 witness: period 4, watermark 10, slot of target 7 holding source 9;
a second vote for target 7 with source 0 is flagged. -/
theorem isNewAttSlashable_double_vote_detected_witness :
    isNewAttSlashable 4 ⟨10, [farFutureEpoch, farFutureEpoch, 5, 9]⟩ 0 7 = true :=
  isNewAttSlashable_double_vote_detected 4 ⟨10, [farFutureEpoch, farFutureEpoch, 5, 9]⟩ 0 7
    (by decide) (by decide) (by decide) (by decide) (by decide)

/-- The history obtained from an empty history (period 16) by committing
(source 2, target 9) and then (source 5, target 10). -/
def scenarioHistory : AttestationHistory :=
  markAttestationForTargetEpoch 16
    (markAttestationForTargetEpoch 16 (emptyHistory 16) 2 9) 5 10

/-- C5 counterexample: after committing (2,9) and (5,10) into an empty
history, the claim says `isNewAttSlashable history 6 9` is `false`; in the
code the double-vote check fires first (target 9 already has a recorded
vote), so the result is `true`. -/
theorem isNewAttSlashable_six_nine_not_false :
    isNewAttSlashable 16 scenarioHistory 6 9 ≠ false := by
  decide

/-- C5 (amended): after committing (2,9) then (5,10) into an empty history,
both `isNewAttSlashable history 6 9` and `isNewAttSlashable history 1 9`
return `true`: any second vote for target 9 — whatever its source — is
flagged by the double-vote check before the surround checks run. -/
theorem scenario_double_vote_both_true :
    isNewAttSlashable 16 scenarioHistory 6 9 = true ∧
    isNewAttSlashable 16 scenarioHistory 1 9 = true := by
  decide

/-- C7 counterexample: the round trip fails for a target that is stale with
respect to the (unchanged) watermark.  With period 4, watermark 100 and
target 3, the commit writes slot `3 % 4` but does not move the watermark,
and the subsequent bounds-checked read of epoch 3 returns the sentinel, not
the committed source 7. -/
theorem mark_roundtrip_stale_target_fails :
    safeTargetToSource 4 (markAttestationForTargetEpoch 4 ⟨100, [0, 0, 0, 0]⟩ 7 3) 3 =
      farFutureEpoch ∧ (7 : Nat) ≠ farFutureEpoch := by
  decide

/-- C7 (amended): for every history whose array has length equal to the
period, if the committed target is not stale — at least
`latestEpochWritten - period` in wide integer arithmetic, stated as
`latestEpochWritten <= targetEpoch + period` — and both the target and the
watermark are below `2^63` (period positive and below `2^63`, so the
signed casts do not wrap), then committing via
`markAttestationForTargetEpoch` and reading the same target back through
`safeTargetToSource` returns exactly the committed source.  This covers
targets ahead of the watermark, in-window targets below it, and the
boundary `targetEpoch = latestEpochWritten - period` itself, which the
source's strict `<` lets through. -/
theorem mark_then_safe_roundtrip (ws : Nat) (h : AttestationHistory) (s t : Nat)
    (hlen : h.targetToSource.length = ws) (hws0 : 0 < ws) (hws : ws < 2 ^ 63)
    (hlew : h.latestEpochWritten < 2 ^ 63) (ht : t < 2 ^ 63)
    (hwin : h.latestEpochWritten ≤ t + ws) :
    safeTargetToSource ws (markAttestationForTargetEpoch ws h s t) t = s := by
  have hmod : t % ws < ws := Nat.mod_lt _ hws0
  obtain ⟨arr, harr, hlen2⟩ := mark_targetToSource_shape ws h s t
  have hmax : (markAttestationForTargetEpoch ws h s t).latestEpochWritten =
      max h.latestEpochWritten t := mark_latestEpochWritten ws h s t
  have hMt : t ≤ max h.latestEpochWritten t := Nat.le_max_right _ _
  have hMw : max h.latestEpochWritten t ≤ t + ws := max_le hwin (Nat.le_add_right t ws)
  have hM63 : max h.latestEpochWritten t < 2 ^ 63 := max_lt hlew ht
  unfold safeTargetToSource
  rw [hmax, harr, uint64ToInt64_small _ ht, uint64ToInt64_small _ hM63,
    uint64ToInt64_small _ hws, int64wrap_id _ (by omega) (by omega), if_neg (by omega)]
  exact getD_set_self arr (t % ws) s (by rw [hlen2, hlen]; exact hmod)

/-- C7 witness: with period 4 and watermark 10, committing (source 7,
target 7) — an in-window target strictly below the watermark — and
reading target 7 back yields 7. -/
theorem mark_then_safe_roundtrip_witness :
    safeTargetToSource 4 (markAttestationForTargetEpoch 4 ⟨10, [0, 0, 0, 0]⟩ 7 7) 7 = 7 :=
  mark_then_safe_roundtrip 4 ⟨10, [0, 0, 0, 0]⟩ 7 7
    (by decide) (by decide) (by decide) (by decide) (by decide) (by decide)

/-- C8 counterexample: with period 4 all physical slots serve both the
epochs up to 3 and the epochs 4 through 7, so the gap-clearing loop resets
the slot that held epoch 3's vote.  Starting from watermark 3 and every
slot holding 9, the commit of target 10 leaves
`[sentinel, sentinel, source, sentinel]`: the slot of epoch 3 (index
`3 % 4 = 3`) now holds the sentinel, not its prior value 9 — it was not
left unchanged as the claim states. -/
theorem mark_gap_clear_epoch3_slot_reset :
    markAttestationForTargetEpoch 4 ⟨3, [9, 9, 9, 9]⟩ 1 10 =
      ⟨10, [farFutureEpoch, farFutureEpoch, 1, farFutureEpoch]⟩ ∧
    (markAttestationForTargetEpoch 4 ⟨3, [9, 9, 9, 9]⟩ 1 10).targetToSource.getD (3 % 4) 0 ≠ 9 := by
  decide

/-- C8 (amended): with period 4 and watermark 3, committing target 10
resets the slots of epochs 4 through 7 (bounded by
`latestEpochWritten + period = 7`) to the sentinel; since with period 4
those four epochs occupy every physical slot — each slot of epochs 0..3 is
shared with one of epochs 4..7 — the whole array is cleared (the slot of
epoch 3 included) and then `targetToSource[10 mod 4]` is written, so the
result is `⟨10, [sentinel, sentinel, source, sentinel]⟩` regardless of the
prior slot contents. -/
theorem mark_gap_clear_characterization (s : Nat) (arr : List Nat) (hlen : arr.length = 4) :
    markAttestationForTargetEpoch 4 ⟨3, arr⟩ s 10 =
      ⟨10, [farFutureEpoch, farFutureEpoch, s, farFutureEpoch]⟩ := by
  match arr, hlen with
  | [a, b, c, d], _ =>
    unfold markAttestationForTargetEpoch
    rw [if_pos (by norm_num)]
    norm_num
    rw [show clearSlots 4 6 4 10 7 [a, b, c, d] =
      [farFutureEpoch, farFutureEpoch, farFutureEpoch, farFutureEpoch] from rfl]
    rfl
  | [], h => simp at h
  | [a], h => simp at h
  | [a, b], h => simp at h
  | [a, b, c], h => simp at h
  | a :: b :: c :: d :: e :: rest, h => simp at h

/-- C8 witness: the amended characterization evaluated at a concrete
start array. -/
theorem mark_gap_clear_characterization_witness :
    markAttestationForTargetEpoch 4 ⟨3, [7, 7, 7, 7]⟩ 2 10 =
      ⟨10, [farFutureEpoch, farFutureEpoch, 2, farFutureEpoch]⟩ :=
  mark_gap_clear_characterization 2 [7, 7, 7, 7] (by decide)

/-- C9: for every history and every (sourceEpoch, targetEpoch), the history
returned by `markAttestationForTargetEpoch` has a watermark greater than or
equal to the input's (the watermark never decreases), and it equals the
input watermark exactly when the target epoch is at most the input
watermark. -/
theorem mark_watermark_monotone (ws : Nat) (h : AttestationHistory) (s t : Nat) :
    h.latestEpochWritten ≤ (markAttestationForTargetEpoch ws h s t).latestEpochWritten ∧
    ((markAttestationForTargetEpoch ws h s t).latestEpochWritten = h.latestEpochWritten ↔
      t ≤ h.latestEpochWritten) := by
  rw [mark_latestEpochWritten]
  refine ⟨Nat.le_max_left _ _, ?_, ?_⟩
  · intro he
    rcases Nat.le_total t h.latestEpochWritten with hle | hge
    · exact hle
    · rw [Nat.max_eq_right hge] at he
      omega
  · intro hle
    rw [Nat.max_eq_left hle]

/-- C10: for every history with `period - 1 <= latestEpochWritten < 2^63`
(and a period below `2^63`, as every configuration's period is) and every
source epoch, `isNewAttSlashable` returns `false` for every
`targetEpoch >= 2^63` — the `FarFutureEpoch` sentinel included — regardless
of the history's contents: the pruned-window comparison converts the target
epoch to signed 64-bit, making it negative and fall below the retained
window. -/
theorem isNewAttSlashable_huge_target_false (ws : Nat) (h : AttestationHistory) (s t : Nat)
    (hws : ws < 2 ^ 63) (hw : ws ≤ h.latestEpochWritten + 1)
    (hlew : h.latestEpochWritten < 2 ^ 63) (ht : 2 ^ 63 ≤ t) (ht2 : t < 2 ^ 64) :
    isNewAttSlashable ws h s t = false := by
  unfold isNewAttSlashable
  rw [uint64ToInt64_large _ ht, uint64ToInt64_small _ hlew, uint64ToInt64_small _ hws,
    int64wrap_id _ (by omega) (by omega), if_pos (by omega)]

/-- C10 witness: with period 4, watermark 3 and arbitrary recorded votes, a
target of `2^63` is reported not slashable. -/
theorem isNewAttSlashable_huge_target_false_witness :
    isNewAttSlashable 4 ⟨3, [1, 1, 1, 1]⟩ 0 (2 ^ 63) = false :=
  isNewAttSlashable_huge_target_false 4 ⟨3, [1, 1, 1, 1]⟩ 0 (2 ^ 63)
    (by decide) (by decide) (by decide) (by decide) (by decide)

/-! ### The attestation submission orchestrator (`SubmitAttestation`)

The orchestrator's external collaborators (duty lookup, the
`GetAttestationData` RPC, the history store, the signer, the
`ProposeAttestation` RPC) are modelled as an environment of oracle results,
one per call site, and the orchestrator is translated as a function from
the environment to the ordered list of claim-relevant calls it performs:
slashing checks, signing calls, submission calls and history saves.
Metrics, logging, tracing and the post-save log-annotation step perform no
claim-relevant calls and produce no events. -/

/-- The source/target epochs of an `AttestationData` value; the remaining
fields (committee index, block root, ...) play no role in the control flow
of `SubmitAttestation` beyond being passed through. -/
structure AttData where
  sourceEpoch : Nat
  targetEpoch : Nat
deriving DecidableEq

/-- A claim-relevant call made by `SubmitAttestation`, in program order:
`checked s t` is a call to `isNewAttSlashable` on the pair `(s, t)`;
`signed s t` is a `signAtt` call for the attestation data with that pair;
`proposed s t` is a `ProposeAttestation` submission call for it;
`savedHistory h` is a `SaveAttestationHistory` call with history `h`. -/
inductive Event where
  | checked (sourceEpoch targetEpoch : Nat)
  | signed (sourceEpoch targetEpoch : Nat)
  | proposed (sourceEpoch targetEpoch : Nat)
  | savedHistory (history : AttestationHistory)
deriving DecidableEq

def Event.isSign : Event → Bool
  | .signed _ _ => true
  | _ => false

def Event.isPropose : Event → Bool
  | .proposed _ _ => true
  | _ => false

/-- Oracle results for the external calls of one `SubmitAttestation`
invocation: the `ProtectAttester` feature flag, whether the duty lookup
succeeds, the first `GetAttestationData` response, the stream of responses
to the repeated second `GetAttestationData` calls, the two
`AttestationHistory` loads (`none` models a DB error), and the
success/failure of the two signing calls, the committee-index search and
the two submission calls. -/
structure Env where
  protectAttester : Bool
  dutyOk : Bool
  attData1 : Option AttData
  attData2Responses : List (Option AttData)
  historyLoad1 : Option AttestationHistory
  sign1Ok : Bool
  sign2Ok : Bool
  committeeFound : Bool
  propose1Ok : Bool
  propose2Ok : Bool
  historyLoad2 : Option AttestationHistory

/-- The `for data1.Source.Epoch == data2.Source.Epoch` refetch loop:
`data2` starts as a clone of `data1`, so the loop body runs until a
response with a different source epoch arrives; an RPC error (`none`)
aborts.  The environment supplies a finite prefix of responses, so a run
in which the loop never exits is not modelled (exhaustion is treated as an
error). -/
def fetchData2 (src1 : Nat) : List (Option AttData) → Option AttData
  | [] => none
  | none :: _ => none
  | some d :: rest => if d.sourceEpoch = src1 then fetchData2 src1 rest else some d

/-- Lines 182-199 of the source: if `ProtectAttester` is set, reload the
history, fold in `data1`'s vote with `markAttestationForTargetEpoch` and
save it.  (`data2`'s vote is not folded in.) -/
def commitPhase (ws : Nat) (env : Env) (data1 : AttData) : List Event :=
  if env.protectAttester then
    match env.historyLoad2 with
    | none => []
    | some history =>
      [Event.savedHistory
        (markAttestationForTargetEpoch ws history data1.sourceEpoch data1.targetEpoch)]
  else []

/-- Lines 115-199 of the source after the protection check: sign both
attestations, locate the validator in the committee, submit both
attestations, then run the commit phase.  Every failing call aborts the
remainder. -/
def signAndSubmit (ws : Nat) (env : Env) (data1 data2 : AttData) : List Event :=
  Event.signed data1.sourceEpoch data1.targetEpoch ::
    (if !env.sign1Ok then [] else
      Event.signed data2.sourceEpoch data2.targetEpoch ::
        (if !env.sign2Ok then [] else
          if !env.committeeFound then [] else
            Event.proposed data1.sourceEpoch data1.targetEpoch ::
              (if !env.propose1Ok then [] else
                Event.proposed data2.sourceEpoch data2.targetEpoch ::
                  (if !env.propose2Ok then [] else commitPhase ws env data1))))

/-- `SubmitAttestation` from the source: resolve the duty, fetch `data1`,
refetch `data2` until its source epoch differs, then (only if
`ProtectAttester` is set) load the history and abort if
`isNewAttSlashable` flags `data1`'s pair; otherwise sign, submit and
commit.  The result is the ordered list of claim-relevant calls made. -/
def submitAttestation (ws : Nat) (env : Env) : List Event :=
  if !env.dutyOk then [] else
    match env.attData1 with
    | none => []
    | some data1 =>
      match fetchData2 data1.sourceEpoch env.attData2Responses with
      | none => []
      | some data2 =>
        if env.protectAttester then
          match env.historyLoad1 with
          | none => []
          | some history =>
            if isNewAttSlashable ws history data1.sourceEpoch data1.targetEpoch then
              [Event.checked data1.sourceEpoch data1.targetEpoch]
            else
              Event.checked data1.sourceEpoch data1.targetEpoch ::
                signAndSubmit ws env data1 data2
        else signAndSubmit ws env data1 data2

/-- Exhaustive case analysis of the traces `SubmitAttestation` can produce
when slashing protection is enabled: nothing happened, the protection
check rejected `data1`'s pair, or the check passed and the run aborted at
one of the later calls (or completed, ending with the save of the history
updated with `data1`'s vote only). -/
lemma submitAttestation_trace_cases (ws : Nat) (env : Env)
    (hp : env.protectAttester = true) :
    submitAttestation ws env = [] ∨
    ∃ d1 h1, env.attData1 = some d1 ∧ env.historyLoad1 = some h1 ∧
      ((isNewAttSlashable ws h1 d1.sourceEpoch d1.targetEpoch = true ∧
        submitAttestation ws env = [Event.checked d1.sourceEpoch d1.targetEpoch]) ∨
       (isNewAttSlashable ws h1 d1.sourceEpoch d1.targetEpoch = false ∧
        ∃ d2 : AttData,
          submitAttestation ws env =
            [Event.checked d1.sourceEpoch d1.targetEpoch,
             Event.signed d1.sourceEpoch d1.targetEpoch] ∨
          submitAttestation ws env =
            [Event.checked d1.sourceEpoch d1.targetEpoch,
             Event.signed d1.sourceEpoch d1.targetEpoch,
             Event.signed d2.sourceEpoch d2.targetEpoch] ∨
          submitAttestation ws env =
            [Event.checked d1.sourceEpoch d1.targetEpoch,
             Event.signed d1.sourceEpoch d1.targetEpoch,
             Event.signed d2.sourceEpoch d2.targetEpoch,
             Event.proposed d1.sourceEpoch d1.targetEpoch] ∨
          (env.propose1Ok = true ∧
            (submitAttestation ws env =
              [Event.checked d1.sourceEpoch d1.targetEpoch,
               Event.signed d1.sourceEpoch d1.targetEpoch,
               Event.signed d2.sourceEpoch d2.targetEpoch,
               Event.proposed d1.sourceEpoch d1.targetEpoch,
               Event.proposed d2.sourceEpoch d2.targetEpoch] ∨
             (env.propose2Ok = true ∧ ∃ h2, env.historyLoad2 = some h2 ∧
               submitAttestation ws env =
                 [Event.checked d1.sourceEpoch d1.targetEpoch,
                  Event.signed d1.sourceEpoch d1.targetEpoch,
                  Event.signed d2.sourceEpoch d2.targetEpoch,
                  Event.proposed d1.sourceEpoch d1.targetEpoch,
                  Event.proposed d2.sourceEpoch d2.targetEpoch,
                  Event.savedHistory (markAttestationForTargetEpoch ws h2
                    d1.sourceEpoch d1.targetEpoch)]))))) := by
  cases hd : env.dutyOk with
  | false => exact Or.inl (by simp [submitAttestation, hd])
  | true =>
  cases ha : env.attData1 with
  | none => exact Or.inl (by simp [submitAttestation, hd, ha])
  | some d1 =>
  cases hf : fetchData2 d1.sourceEpoch env.attData2Responses with
  | none => exact Or.inl (by simp [submitAttestation, hd, ha, hf])
  | some d2 =>
  cases hh : env.historyLoad1 with
  | none => exact Or.inl (by simp [submitAttestation, hd, ha, hf, hp, hh])
  | some h1 =>
  cases hs : isNewAttSlashable ws h1 d1.sourceEpoch d1.targetEpoch with
  | true =>
    exact Or.inr ⟨d1, h1, rfl, rfl, Or.inl ⟨hs,
      by simp [submitAttestation, hd, ha, hf, hp, hh, hs]⟩⟩
  | false =>
  refine Or.inr ⟨d1, h1, rfl, rfl, Or.inr ⟨hs, d2, ?_⟩⟩
  cases hs1 : env.sign1Ok with
  | false =>
    exact Or.inl (by simp [submitAttestation, signAndSubmit, hd, ha, hf, hp, hh, hs, hs1])
  | true =>
  cases hs2 : env.sign2Ok with
  | false =>
    exact Or.inr (Or.inl
      (by simp [submitAttestation, signAndSubmit, hd, ha, hf, hp, hh, hs, hs1, hs2]))
  | true =>
  cases hc : env.committeeFound with
  | false =>
    exact Or.inr (Or.inl
      (by simp [submitAttestation, signAndSubmit, hd, ha, hf, hp, hh, hs, hs1, hs2, hc]))
  | true =>
  cases hp1 : env.propose1Ok with
  | false =>
    exact Or.inr (Or.inr (Or.inl
      (by simp [submitAttestation, signAndSubmit, hd, ha, hf, hp, hh, hs, hs1, hs2, hc, hp1])))
  | true =>
  refine Or.inr (Or.inr (Or.inr ⟨rfl, ?_⟩))
  cases hp2 : env.propose2Ok with
  | false =>
    exact Or.inl (by simp [submitAttestation, signAndSubmit, commitPhase,
      hd, ha, hf, hp, hh, hs, hs1, hs2, hc, hp1, hp2])
  | true =>
  cases hh2 : env.historyLoad2 with
  | none =>
    exact Or.inl (by simp [submitAttestation, signAndSubmit, commitPhase,
      hd, ha, hf, hp, hh, hs, hs1, hs2, hc, hp1, hp2, hh2])
  | some h2 =>
    exact Or.inr ⟨rfl, h2, rfl, by simp [submitAttestation, signAndSubmit, commitPhase,
      hd, ha, hf, hp, hh, hs, hs1, hs2, hc, hp1, hp2, hh2]⟩

/-- An environment in which the first candidate vote (2,3) passes the
protection check but the second candidate vote (0,2) is a double vote for
target 2 (already recorded with source 1), and every external call
succeeds. -/
def envSecondSlashable : Env :=
  { protectAttester := true
    dutyOk := true
    attData1 := some ⟨2, 3⟩
    attData2Responses := [some ⟨0, 2⟩]
    historyLoad1 := some ⟨2, [farFutureEpoch, farFutureEpoch, 1, farFutureEpoch]⟩
    sign1Ok := true
    sign2Ok := true
    committeeFound := true
    propose1Ok := true
    propose2Ok := true
    historyLoad2 := some ⟨2, [farFutureEpoch, farFutureEpoch, 1, farFutureEpoch]⟩ }

/-- C1 counterexample: `SubmitAttestation` consults `isNewAttSlashable`
only on the first candidate's pair.  In `envSecondSlashable` the second
candidate's pair (0,2) is slashable against the loaded history, yet the
run signs and submits both candidates — the attempt is not aborted, so
"slashable for either of the two candidates implies no signing and no
submission" is false. -/
theorem submitAttestation_slashable_second_not_aborted :
    isNewAttSlashable 4 ⟨2, [farFutureEpoch, farFutureEpoch, 1, farFutureEpoch]⟩ 0 2 = true ∧
    Event.signed 0 2 ∈ submitAttestation 4 envSecondSlashable ∧
    Event.proposed 0 2 ∈ submitAttestation 4 envSecondSlashable := by
  decide

/-- C1 (amended): when slashing protection is enabled, if
`isNewAttSlashable` returns `true` for the **first** fetched candidate's
(sourceEpoch, targetEpoch) pair, the whole attempt is aborted and no
signing call and no submission call is made for either candidate.  (The
second candidate's pair is never checked; a slashable second candidate
does not abort the attempt.) -/
theorem submitAttestation_slashable_first_aborts (ws : Nat) (env : Env)
    (d1 : AttData) (h1 : AttestationHistory)
    (hp : env.protectAttester = true) (hd : env.attData1 = some d1)
    (hh : env.historyLoad1 = some h1)
    (hs : isNewAttSlashable ws h1 d1.sourceEpoch d1.targetEpoch = true) :
    ∀ e ∈ submitAttestation ws env, e.isSign = false ∧ e.isPropose = false := by
  rcases submitAttestation_trace_cases ws env hp with hnil | ⟨d1', h1', hd', hh', hcase⟩
  · rw [hnil]
    intro e he
    simp at he
  · obtain rfl : d1' = d1 := Option.some.inj (hd'.symm.trans hd)
    obtain rfl : h1' = h1 := Option.some.inj (hh'.symm.trans hh)
    rcases hcase with ⟨_, htr⟩ | ⟨hfalse, _⟩
    · rw [htr]
      intro e he
      simp at he
      subst he
      exact ⟨rfl, rfl⟩
    · rw [hs] at hfalse
      exact absurd hfalse (by simp)

/-- An environment in which the first candidate's pair (0,2) is itself a
double vote against the loaded history, so the protection check rejects
the attempt. -/
def envFirstSlashable : Env :=
  { protectAttester := true
    dutyOk := true
    attData1 := some ⟨0, 2⟩
    attData2Responses := [some ⟨1, 3⟩]
    historyLoad1 := some ⟨2, [farFutureEpoch, farFutureEpoch, 1, farFutureEpoch]⟩
    sign1Ok := true
    sign2Ok := true
    committeeFound := true
    propose1Ok := true
    propose2Ok := true
    historyLoad2 := some ⟨2, [farFutureEpoch, farFutureEpoch, 1, farFutureEpoch]⟩ }

/-- C1 witness: the amended theorem applied to `envFirstSlashable` and the
one event of its trace (the rejected protection check), which is neither a
signing nor a submission call. -/
theorem submitAttestation_slashable_first_aborts_witness :
    (Event.checked 0 2).isSign = false ∧ (Event.checked 0 2).isPropose = false :=
  submitAttestation_slashable_first_aborts 4 envFirstSlashable ⟨0, 2⟩
    ⟨2, [farFutureEpoch, farFutureEpoch, 1, farFutureEpoch]⟩ rfl rfl rfl (by decide)
    (Event.checked 0 2) (by decide)

/-- Scan of a trace checking the protection ordering: a submission call is
admissible only after at least one slashing check, and a history save only
after at least two submission calls.  `checks` and `props` count the
`checked` and `proposed` events already seen. -/
def protectOrderOk : Nat → Nat → List Event → Bool
  | _, _, [] => true
  | checks, props, Event.checked _ _ :: rest => protectOrderOk (checks + 1) props rest
  | checks, props, Event.signed _ _ :: rest => protectOrderOk checks props rest
  | checks, props, Event.proposed _ _ :: rest =>
      decide (1 ≤ checks) && protectOrderOk checks (props + 1) rest
  | checks, props, Event.savedHistory _ :: rest =>
      decide (2 ≤ props) && protectOrderOk checks props rest

/-- C2: in every execution of `SubmitAttestation` with slashing protection
enabled, the history save occurs only after both submission calls (the
history never records a vote that was not submitted — and the save is
reached only when both submissions succeeded), and every submission call
is preceded by an `isNewAttSlashable` consultation in that same
execution. -/
theorem submitAttestation_save_after_submit_check_before_submit (ws : Nat) (env : Env)
    (hp : env.protectAttester = true) :
    protectOrderOk 0 0 (submitAttestation ws env) = true ∧
    ∀ h', Event.savedHistory h' ∈ submitAttestation ws env →
      env.propose1Ok = true ∧ env.propose2Ok = true := by
  rcases submitAttestation_trace_cases ws env hp with hnil | ⟨d1, h1, _, _, hcase⟩
  · rw [hnil]
    exact ⟨rfl, fun h' hmem => absurd hmem (by simp)⟩
  · rcases hcase with ⟨_, htr⟩ | ⟨_, d2, htr | htr | htr | ⟨hp1, htr | ⟨hp2, h2, _, htr⟩⟩⟩ <;>
      rw [htr]
    · exact ⟨rfl, fun h' hmem => absurd hmem (by simp)⟩
    · exact ⟨rfl, fun h' hmem => absurd hmem (by simp)⟩
    · exact ⟨rfl, fun h' hmem => absurd hmem (by simp)⟩
    · exact ⟨rfl, fun h' hmem => absurd hmem (by simp)⟩
    · exact ⟨rfl, fun h' hmem => absurd hmem (by simp)⟩
    · exact ⟨rfl, fun h' _ => ⟨hp1, hp2⟩⟩

/-- An environment in which every external call succeeds and neither
candidate is slashable against the loaded (empty) history. -/
def envAllOk : Env :=
  { protectAttester := true
    dutyOk := true
    attData1 := some ⟨3, 5⟩
    attData2Responses := [some ⟨2, 4⟩]
    historyLoad1 := some (emptyHistory 4)
    sign1Ok := true
    sign2Ok := true
    committeeFound := true
    propose1Ok := true
    propose2Ok := true
    historyLoad2 := some (emptyHistory 4) }

/-- C2 witness: the ordering theorem applied to the all-successful
environment `envAllOk`. -/
theorem submitAttestation_save_after_submit_check_before_submit_witness :
    protectOrderOk 0 0 (submitAttestation 4 envAllOk) = true ∧
    ∀ h', Event.savedHistory h' ∈ submitAttestation 4 envAllOk →
      envAllOk.propose1Ok = true ∧ envAllOk.propose2Ok = true :=
  submitAttestation_save_after_submit_check_before_submit 4 envAllOk rfl

/-- An environment in which both candidates (1,2) and (0,3) are accepted
by the submission sink and the commit phase runs against an empty reloaded
history. -/
def envCommit : Env :=
  { protectAttester := true
    dutyOk := true
    attData1 := some ⟨1, 2⟩
    attData2Responses := [some ⟨0, 3⟩]
    historyLoad1 := some (emptyHistory 4)
    sign1Ok := true
    sign2Ok := true
    committeeFound := true
    propose1Ok := true
    propose2Ok := true
    historyLoad2 := some (emptyHistory 4) }

/-- C6 counterexample: in `envCommit` both candidates (1,2) and (0,3) are
accepted, but the persisted history is the reloaded history with only the
first candidate's vote committed; it differs from the history obtained by
committing both accepted candidates, so "apply the commit for each of the
two accepted candidate votes" is false. -/
theorem submitAttestation_second_candidate_not_committed :
    Event.savedHistory ⟨2, [farFutureEpoch, farFutureEpoch, 1, farFutureEpoch]⟩ ∈
      submitAttestation 4 envCommit ∧
    (⟨2, [farFutureEpoch, farFutureEpoch, 1, farFutureEpoch]⟩ : AttestationHistory) ≠
      markAttestationForTargetEpoch 4
        (markAttestationForTargetEpoch 4 (emptyHistory 4) 1 2) 0 3 := by
  decide

/-- C6 (amended): in `SubmitAttestation` with slashing protection enabled,
after both attestations are accepted by the submission sink, the reloaded
history is updated by applying the commit for the **first** candidate vote
only before being persisted; the second candidate's vote is not
committed. -/
theorem submitAttestation_commits_first_candidate_only (ws : Nat) (env : Env)
    (d1 : AttData) (h2 : AttestationHistory)
    (hp : env.protectAttester = true) (hd : env.attData1 = some d1)
    (hl : env.historyLoad2 = some h2) :
    ∀ h', Event.savedHistory h' ∈ submitAttestation ws env →
      h' = markAttestationForTargetEpoch ws h2 d1.sourceEpoch d1.targetEpoch := by
  rcases submitAttestation_trace_cases ws env hp with hnil | ⟨d1', h1', hd', _, hcase⟩
  · rw [hnil]
    intro h' hmem
    simp at hmem
  · obtain rfl : d1' = d1 := Option.some.inj (hd'.symm.trans hd)
    rcases hcase with ⟨_, htr⟩ | ⟨_, d2, htr | htr | htr | ⟨_, htr | ⟨_, h2', hl2', htr⟩⟩⟩
    · rw [htr]
      intro h' hmem
      simp at hmem
    · rw [htr]
      intro h' hmem
      simp at hmem
    · rw [htr]
      intro h' hmem
      simp at hmem
    · rw [htr]
      intro h' hmem
      simp at hmem
    · rw [htr]
      intro h' hmem
      simp at hmem
    · obtain rfl : h2' = h2 := Option.some.inj (hl2'.symm.trans hl)
      rw [htr]
      intro h' hmem
      simp at hmem
      exact hmem

/-- C6 witness: the amended theorem applied to `envCommit` and the history
that its trace saves, which is the first candidate's commit. -/
theorem submitAttestation_commits_first_candidate_only_witness :
    (⟨2, [farFutureEpoch, farFutureEpoch, 1, farFutureEpoch]⟩ : AttestationHistory) =
      markAttestationForTargetEpoch 4 (emptyHistory 4) 1 2 :=
  submitAttestation_commits_first_candidate_only 4 envCommit ⟨1, 2⟩ (emptyHistory 4)
    rfl rfl rfl ⟨2, [farFutureEpoch, farFutureEpoch, 1, farFutureEpoch]⟩ (by decide)
